import Mathlib

/-!
Verification of `src/asset-sources/blender-export.py`.

The script registers a single callback on Blender's `load_post` handler
list.  The callback scrapes the process argument list for the token `--`,
takes the argument after it as the output path (printing a usage message
and returning when that fails), and invokes `bpy.ops.export_scene.gltf`
with a fixed option table.

We embed the script shallowly:
* Python exceptions become `Except PyError`;
* `sys.argv.index("--")` becomes `pyListIndex`, `sys.argv[i]` (with the
  non-negative index used here) becomes `pyGetItem`;
* the observable actions of one callback invocation (the printed usage
  message, the exporter call) become a trace of `Event`s;
* the external operator `bpy.ops.export_scene.gltf` is a parameter of the
  callback: a function from the file path and the option table to
  `Except PyError Unit`, so that its own failures can propagate;
* module initialization (`bpy.app.handlers.load_post.append(export)`)
  becomes a function on a handler-list state.
-/

/-- Python exceptions relevant to the script: `list.index` raises
`ValueError`, sequence subscripts raise `IndexError`, and the host
exporter may raise anything (`other`). -/
inductive PyError where
  | valueError
  | indexError
  | other (msg : String)
  deriving DecidableEq

/-- The keyword arguments of the `bpy.ops.export_scene.gltf` call, apart
from the destination `filepath` which is passed separately. -/
structure GltfOptions where
  check_existing : Bool
  export_format : String
  use_visible : Bool
  export_colors : Bool
  export_skins : Bool
  export_animations : Bool
  export_def_bones : Bool
  export_morph : Bool
  optimize_animation_size : Bool
  export_yup : Bool
  export_image_format : String
  export_texcoords : Bool
  export_normals : Bool
  export_tangents : Bool
  export_morph_normal : Bool
  export_morph_tangent : Bool
  export_materials : String
  deriving DecidableEq

/-- The literal option table of the `bpy.ops.export_scene.gltf` call in
`export` (lines 16-37 of the script). -/
def fixedOptions : GltfOptions :=
  { check_existing := false
    export_format := "GLB"
    use_visible := true
    export_colors := true
    export_skins := true
    export_animations := true
    export_def_bones := true
    export_morph := true
    optimize_animation_size := true
    export_yup := true
    export_image_format := "NONE"
    export_texcoords := false
    export_normals := false
    export_tangents := false
    export_morph_normal := false
    export_morph_tangent := false
    export_materials := "NONE" }

/-- Observable actions of one callback invocation: a `print` to standard
output, or a call of the host exporter with a destination path and the
option table. -/
inductive Event where
  | printed (msg : String)
  | gltfExport (filepath : String) (opts : GltfOptions)
  deriving DecidableEq

/-- The usage message printed by the `except` branch (line 13). -/
def usageMsg : String := "Give the target file after a \x27--\x27 on the command line"

/-- Python `list.index`: index of the first occurrence of `tok`, raising
`ValueError` when `tok` does not occur. -/
def pyListIndex : List String → String → Except PyError Nat
  | [], _ => Except.error PyError.valueError
  | a :: as, tok =>
    if a = tok then Except.ok 0
    else (pyListIndex as tok).map (· + 1)

/-- Python sequence subscript `l[i]` for the non-negative indices the
script uses: raises `IndexError` when `i` is out of range. -/
def pyGetItem (l : List String) (i : Nat) : Except PyError String :=
  match l.get? i with
  | some s => Except.ok s
  | none => Except.error PyError.indexError

/-- The body of the `try` block (line 11):
`sys.argv[sys.argv.index("--") + 1]`. -/
def resolveTarget (argv : List String) : Except PyError String :=
  match pyListIndex argv "--" with
  | Except.error e => Except.error e
  | Except.ok i => pyGetItem argv (i + 1)

/-- The callback `export(*_)` (lines 9-37).  `hostArgs` are the
host-supplied positional arguments, bound to `*_` and never read.
`argv` is `sys.argv`.  `gltf` is the external
`bpy.ops.export_scene.gltf` operator.  The result is the trace of
observable events when the callback returns normally, or the error when
an exception escapes the callback. -/
def export' {α : Type} (_hostArgs : List α) (argv : List String)
    (gltf : String → GltfOptions → Except PyError Unit) :
    Except PyError (List Event) :=
  match resolveTarget argv with
  | Except.error _ => Except.ok [Event.printed usageMsg]
  | Except.ok target_file =>
    match gltf target_file fixedOptions with
    | Except.error e => Except.error e
    | Except.ok _ => Except.ok [Event.gltfExport target_file fixedOptions]

/-- A host exporter that always succeeds, for exercising the callback's
normal path. -/
def okGltf : String → GltfOptions → Except PyError Unit :=
  fun _ _ => Except.ok ()

/-- A handler registered in one of `bpy.app.handlers`' lists: the
script's `export` callback, or any other handler the host or other
scripts may have registered. -/
inductive HandlerId where
  | exportHandler
  | otherHandler (n : Nat)
  deriving DecidableEq

/-- The handler lists of `bpy.app.handlers` the model tracks. -/
structure Handlers where
  load_pre : List HandlerId
  load_post : List HandlerId
  save_pre : List HandlerId
  save_post : List HandlerId
  deriving DecidableEq

/-- Module initialization (line 39):
`bpy.app.handlers.load_post.append(export)`. -/
def moduleInit (h : Handlers) : Handlers :=
  { h with load_post := h.load_post ++ [HandlerId.exportHandler] }

/-- A host exporter that always fails, for exercising error propagation. -/
def badGltf : String → GltfOptions → Except PyError Unit :=
  fun _ _ => Except.error (PyError.other "disk full")

/-- `list.index` raises `ValueError` exactly when the token is absent. -/
theorem pyListIndex_error_of_not_mem :
    ∀ (l : List String) (tok : String), tok ∉ l →
      pyListIndex l tok = Except.error PyError.valueError
  | [], _, _ => rfl
  | a :: as, tok, h => by
    have ha : ¬ a = tok := fun e => h (e ▸ List.mem_cons_self a as)
    have hm : tok ∉ as := fun m => h (List.mem_cons_of_mem a m)
    simp [pyListIndex, ha, pyListIndex_error_of_not_mem as tok hm, Except.map]

/-- `list.index` succeeds when the token occurs. -/
theorem pyListIndex_ok_of_mem :
    ∀ (l : List String) (tok : String), tok ∈ l →
      ∃ n, pyListIndex l tok = Except.ok n
  | [], _, h => absurd h (List.not_mem_nil _)
  | a :: as, tok, h => by
    by_cases ha : a = tok
    · exact ⟨0, by simp [pyListIndex, ha]⟩
    · have hm : tok ∈ as := (List.mem_cons.mp h).resolve_left fun e => ha e.symm
      obtain ⟨n, hn⟩ := pyListIndex_ok_of_mem as tok hm
      exact ⟨n + 1, by simp [pyListIndex, ha, hn, Except.map]⟩

/-- The index returned by `list.index` points at the token. -/
theorem pyListIndex_get :
    ∀ (l : List String) (tok : String) (n : Nat),
      pyListIndex l tok = Except.ok n → l.get? n = some tok
  | [], _, _, h => by simp [pyListIndex] at h
  | a :: as, tok, n, h => by
    by_cases ha : a = tok
    · simp [pyListIndex, ha] at h
      subst h
      simp [ha]
    · simp only [pyListIndex, if_neg ha] at h
      cases hr : pyListIndex as tok with
      | error e => rw [hr] at h; simp [Except.map] at h
      | ok m =>
        rw [hr] at h
        simp [Except.map] at h
        subst h
        simpa using pyListIndex_get as tok m hr

/-- The index returned by `list.index` is the first occurrence. -/
theorem pyListIndex_min :
    ∀ (l : List String) (tok : String) (n j : Nat),
      pyListIndex l tok = Except.ok n → l.get? j = some tok → n ≤ j
  | [], _, _, _, h, _ => by simp [pyListIndex] at h
  | a :: as, tok, n, j, h, hj => by
    by_cases ha : a = tok
    · simp [pyListIndex, ha] at h
      subst h
      exact Nat.zero_le j
    · simp only [pyListIndex, if_neg ha] at h
      cases hr : pyListIndex as tok with
      | error e => rw [hr] at h; simp [Except.map] at h
      | ok m =>
        rw [hr] at h
        simp [Except.map] at h
        subst h
        cases j with
        | zero => simp at hj; exact absurd hj ha
        | succ j =>
          simp only [List.get?] at hj
          exact Nat.succ_le_succ (pyListIndex_min as tok m j hr hj)

/-- `list.index` on a list whose prefix avoids the token finds the
occurrence that starts the suffix. -/
theorem pyListIndex_append :
    ∀ (pre : List String) (tok : String) (rest : List String), tok ∉ pre →
      pyListIndex (pre ++ tok :: rest) tok = Except.ok pre.length
  | [], tok, rest, _ => by simp [pyListIndex]
  | a :: pre, tok, rest, h => by
    have ha : ¬ a = tok := fun e => h (e ▸ List.mem_cons_self a pre)
    have hm : tok ∉ pre := fun m => h (List.mem_cons_of_mem a m)
    simp [pyListIndex, ha, pyListIndex_append pre tok rest hm, Except.map]

/-- Every exporter call in a normally returning run of the callback uses
the fixed option table. -/
theorem export_call_options {α : Type} (a : List α) (argv : List String)
    (gltf : String → GltfOptions → Except PyError Unit) (evs : List Event)
    (t : String) (o : GltfOptions)
    (h1 : export' a argv gltf = Except.ok evs)
    (h2 : Event.gltfExport t o ∈ evs) : o = fixedOptions := by
  unfold export' at h1
  split at h1
  · injection h1 with h1
    subst h1
    simp at h2
  · split at h1
    · cases h1
    · injection h1 with h1
      subst h1
      simp at h2
      exact h2.2

/-- C1: when the argument list contains `--` with at least one argument
after it, the resolved output path is exactly the argument after the
(first) `--`, and the exporter is invoked with it as destination. -/
theorem c1_output_path (argv : List String)
    (h : ∃ i, argv.get? i = some "--" ∧ i + 1 < argv.length) :
    ∃ n s, pyListIndex argv "--" = Except.ok n ∧ argv.get? (n + 1) = some s ∧
      resolveTarget argv = Except.ok s ∧
      export' ([] : List Unit) argv okGltf =
        Except.ok [Event.gltfExport s fixedOptions] := by
  obtain ⟨i, hi, hlen⟩ := h
  have hmem : "--" ∈ argv := List.get?_mem hi
  obtain ⟨n, hn⟩ := pyListIndex_ok_of_mem argv "--" hmem
  have hle : n ≤ i := pyListIndex_min argv "--" n i hn hi
  have hlt : n + 1 < argv.length := lt_of_le_of_lt (Nat.succ_le_succ hle) hlen
  obtain ⟨s, hs⟩ : ∃ s, argv.get? (n + 1) = some s := by
    cases hg : argv.get? (n + 1) with
    | some s => exact ⟨s, rfl⟩
    | none => exact absurd (List.get?_eq_none.mp hg) (Nat.not_le_of_lt hlt)
  have hres : resolveTarget argv = Except.ok s := by
    unfold resolveTarget
    rw [hn]
    show pyGetItem argv (n + 1) = Except.ok s
    unfold pyGetItem
    rw [hs]
  refine ⟨n, s, hn, hs, hres, ?_⟩
  unfold export'
  rw [hres]
  rfl

/-- C1 witness at a concrete argument list. -/
theorem c1_witness :
    ∃ n s, pyListIndex ["blender", "--", "model.glb"] "--" = Except.ok n ∧
      (["blender", "--", "model.glb"] : List String).get? (n + 1) = some s ∧
      resolveTarget ["blender", "--", "model.glb"] = Except.ok s ∧
      export' ([] : List Unit) ["blender", "--", "model.glb"] okGltf =
        Except.ok [Event.gltfExport s fixedOptions] :=
  c1_output_path ["blender", "--", "model.glb"] ⟨1, rfl, by decide⟩

/-- C2, counterexample to the claim as stated: in
`["blender", "--", "out.glb", "--"]` the token `--` is the last argument
(nothing follows it), yet the callback does not print the usage message:
it invokes the exporter with `"out.glb"` (the argument after the first
`--`). -/
theorem c2_last_separator_counterexample :
    (["blender", "--", "out.glb", "--"] : List String).getLast? = some "--" ∧
    export' ([] : List Unit) ["blender", "--", "out.glb", "--"] okGltf =
      Except.ok [Event.gltfExport "out.glb" fixedOptions] :=
  ⟨rfl, rfl⟩

/-- C2, amended: when the argument list contains no `--` token, or the
first occurrence of `--` is its last argument, the callback prints the
usage message and returns without invoking the exporter. -/
theorem c2_usage_on_missing_path {α : Type} (a : List α) (argv : List String)
    (gltf : String → GltfOptions → Except PyError Unit)
    (h : "--" ∉ argv ∨
      ∃ n, pyListIndex argv "--" = Except.ok n ∧ n + 1 = argv.length) :
    export' a argv gltf = Except.ok [Event.printed usageMsg] := by
  cases h with
  | inl h =>
    have hres : resolveTarget argv = Except.error PyError.valueError := by
      unfold resolveTarget
      rw [pyListIndex_error_of_not_mem argv "--" h]
    unfold export'
    rw [hres]
  | inr h =>
    obtain ⟨n, hn, hlen⟩ := h
    have hg : argv.get? (n + 1) = none := List.get?_eq_none.mpr (le_of_eq hlen.symm)
    have hres : resolveTarget argv = Except.error PyError.indexError := by
      unfold resolveTarget
      rw [hn]
      show pyGetItem argv (n + 1) = Except.error PyError.indexError
      unfold pyGetItem
      rw [hg]
    unfold export'
    rw [hres]

/-- C2 witness: separator present but nothing after it. -/
theorem c2_witness :
    export' ([] : List Unit) ["blender", "--"] okGltf =
      Except.ok [Event.printed usageMsg] :=
  c2_usage_on_missing_path ([] : List Unit) ["blender", "--"] okGltf
    (Or.inr ⟨1, rfl, rfl⟩)

/-- C3: whatever the arguments and the exporter, every exporter call the
callback makes uses exactly the option table of the spec (section 6):
GLB format, no existing-file check, visible objects only, vertex colors,
skins, animations, morph targets included, deform bones only, animation
size optimization, Y-up, and no images, texture coordinates, normals,
tangents, morph normals/tangents or materials. -/
theorem c3_fixed_configuration {α : Type} (a : List α) (argv : List String)
    (gltf : String → GltfOptions → Except PyError Unit) (evs : List Event)
    (t : String) (o : GltfOptions)
    (h1 : export' a argv gltf = Except.ok evs)
    (h2 : Event.gltfExport t o ∈ evs) :
    o.export_format = "GLB" ∧ o.check_existing = false ∧
    o.use_visible = true ∧ o.export_colors = true ∧ o.export_skins = true ∧
    o.export_animations = true ∧ o.export_def_bones = true ∧
    o.export_morph = true ∧ o.optimize_animation_size = true ∧
    o.export_yup = true ∧ o.export_image_format = "NONE" ∧
    o.export_texcoords = false ∧ o.export_normals = false ∧
    o.export_tangents = false ∧ o.export_morph_normal = false ∧
    o.export_morph_tangent = false ∧ o.export_materials = "NONE" := by
  have ho : o = fixedOptions := export_call_options a argv gltf evs t o h1 h2
  subst ho
  exact ⟨rfl, rfl, rfl, rfl, rfl, rfl, rfl, rfl, rfl, rfl, rfl, rfl, rfl,
    rfl, rfl, rfl, rfl⟩

/-- C3 witness at a concrete successful export. -/
theorem c3_witness :
    fixedOptions.export_format = "GLB" ∧ fixedOptions.check_existing = false ∧
    fixedOptions.use_visible = true ∧ fixedOptions.export_colors = true ∧
    fixedOptions.export_skins = true ∧ fixedOptions.export_animations = true ∧
    fixedOptions.export_def_bones = true ∧ fixedOptions.export_morph = true ∧
    fixedOptions.optimize_animation_size = true ∧
    fixedOptions.export_yup = true ∧
    fixedOptions.export_image_format = "NONE" ∧
    fixedOptions.export_texcoords = false ∧
    fixedOptions.export_normals = false ∧
    fixedOptions.export_tangents = false ∧
    fixedOptions.export_morph_normal = false ∧
    fixedOptions.export_morph_tangent = false ∧
    fixedOptions.export_materials = "NONE" :=
  c3_fixed_configuration ([] : List Unit) ["--", "out.glb"] okGltf
    [Event.gltfExport "out.glb" fixedOptions] "out.glb" fixedOptions rfl
    (List.mem_singleton.mpr rfl)

/-- C4: whenever the path-resolution step fails (with any exception),
the callback returns normally after printing the usage message; no
exception from that step surfaces to the host dispatch. -/
theorem c4_resolution_failure_contained {α : Type} (a : List α)
    (argv : List String) (gltf : String → GltfOptions → Except PyError Unit)
    (e : PyError) (h : resolveTarget argv = Except.error e) :
    export' a argv gltf = Except.ok [Event.printed usageMsg] := by
  unfold export'
  rw [h]

/-- C4 witness: an argument list with no separator. -/
theorem c4_witness :
    export' ([] : List Unit) ["blender"] badGltf =
      Except.ok [Event.printed usageMsg] :=
  c4_resolution_failure_contained ([] : List Unit) ["blender"] badGltf
    PyError.valueError rfl

/-- C5: when the path resolves and the host exporter raises, the
exception propagates out of the callback unchanged. -/
theorem c5_exporter_error_propagates {α : Type} (a : List α)
    (argv : List String) (gltf : String → GltfOptions → Except PyError Unit)
    (t : String) (e : PyError)
    (h1 : resolveTarget argv = Except.ok t)
    (h2 : gltf t fixedOptions = Except.error e) :
    export' a argv gltf = Except.error e := by
  unfold export'
  rw [h1]
  show (match gltf t fixedOptions with
    | Except.error e => Except.error e
    | Except.ok _ => Except.ok [Event.gltfExport t fixedOptions]) =
      Except.error e
  rw [h2]

/-- C5 witness: a failing exporter at a concrete argument list. -/
theorem c5_witness :
    export' ([] : List Unit) ["--", "out.glb"] badGltf =
      Except.error (PyError.other "disk full") :=
  c5_exporter_error_propagates ([] : List Unit) ["--", "out.glb"] badGltf
    "out.glb" (PyError.other "disk full") rfl rfl

/-- C6: across any two invocations, with any host arguments, any process
argument lists and any exporters, the option tables of any two exporter
calls are identical: the configuration does not depend on any input. -/
theorem c6_options_constant {α β : Type} (a1 : List α) (a2 : List β)
    (argv1 argv2 : List String)
    (g1 g2 : String → GltfOptions → Except PyError Unit)
    (ev1 ev2 : List Event) (t1 t2 : String) (o1 o2 : GltfOptions)
    (h1 : export' a1 argv1 g1 = Except.ok ev1)
    (m1 : Event.gltfExport t1 o1 ∈ ev1)
    (h2 : export' a2 argv2 g2 = Except.ok ev2)
    (m2 : Event.gltfExport t2 o2 ∈ ev2) : o1 = o2 :=
  (export_call_options a1 argv1 g1 ev1 t1 o1 h1 m1).trans
    (export_call_options a2 argv2 g2 ev2 t2 o2 h2 m2).symm

/-- C6 witness: two invocations with different argument lists. -/
theorem c6_witness : fixedOptions = fixedOptions :=
  c6_options_constant ([] : List Unit) ([] : List Unit)
    ["--", "a.glb"] ["blender", "--", "b.glb"] okGltf okGltf
    [Event.gltfExport "a.glb" fixedOptions]
    [Event.gltfExport "b.glb" fixedOptions]
    "a.glb" "b.glb" fixedOptions fixedOptions
    rfl (List.mem_singleton.mpr rfl) rfl (List.mem_singleton.mpr rfl)

/-- C7: two invocations of the callback with the same valid argument
list (one whose path resolution succeeds) produce the identical exporter
call: same destination path, same option table, both times. -/
theorem c7_repeat_identical {α β : Type} (a1 : List α) (a2 : List β)
    (argv : List String) (t : String)
    (h : resolveTarget argv = Except.ok t) :
    export' a1 argv okGltf = Except.ok [Event.gltfExport t fixedOptions] ∧
    export' a2 argv okGltf = Except.ok [Event.gltfExport t fixedOptions] := by
  constructor <;> (unfold export'; rw [h]; rfl)

/-- C7 witness at a concrete valid argument list. -/
theorem c7_witness :
    export' ([] : List Unit) ["blender", "--", "model.glb"] okGltf =
      Except.ok [Event.gltfExport "model.glb" fixedOptions] ∧
    export' ([] : List Unit) ["blender", "--", "model.glb"] okGltf =
      Except.ok [Event.gltfExport "model.glb" fixedOptions] :=
  c7_repeat_identical ([] : List Unit) ([] : List Unit)
    ["blender", "--", "model.glb"] "model.glb" rfl

/-- C8: the callback ignores the host-supplied arguments: with the same
process argument list and exporter, any two tuples of host arguments
(of any types) lead to the same behaviour. -/
theorem c8_host_args_ignored {α β : Type} (a1 : List α) (a2 : List β)
    (argv : List String)
    (gltf : String → GltfOptions → Except PyError Unit) :
    export' a1 argv gltf = export' a2 argv gltf := rfl

/-- C9: module initialization appends the export callback exactly once
to the end of the host's post-load handler list and registers nothing
anywhere else. -/
theorem c9_registration (h : Handlers) :
    (moduleInit h).load_post = h.load_post ++ [HandlerId.exportHandler] ∧
    (moduleInit h).load_pre = h.load_pre ∧
    (moduleInit h).save_pre = h.save_pre ∧
    (moduleInit h).save_post = h.save_post :=
  ⟨rfl, rfl, rfl, rfl⟩

/-- C10: the output path is the argument right after the first
occurrence of `--`, and that argument is not validated: whatever string
it is (another `--`, an option flag, the empty string), it is passed to
the exporter verbatim. -/
theorem c10_first_separator_verbatim (pre post : List String) (s : String)
    (h : "--" ∉ pre) :
    pyListIndex (pre ++ "--" :: s :: post) "--" = Except.ok pre.length ∧
    resolveTarget (pre ++ "--" :: s :: post) = Except.ok s ∧
    export' ([] : List Unit) (pre ++ "--" :: s :: post) okGltf =
      Except.ok [Event.gltfExport s fixedOptions] := by
  have hidx := pyListIndex_append pre "--" (s :: post) h
  have hget : (pre ++ "--" :: s :: post).get? (pre.length + 1) = some s := by
    rw [List.get?_eq_getElem?,
      List.getElem?_append_right (Nat.le_succ_of_le (Nat.le_refl _))]
    simp
  have hres : resolveTarget (pre ++ "--" :: s :: post) = Except.ok s := by
    unfold resolveTarget
    rw [hidx]
    show pyGetItem (pre ++ "--" :: s :: post) (pre.length + 1) = Except.ok s
    unfold pyGetItem
    rw [hget]
  refine ⟨hidx, hres, ?_⟩
  unfold export'
  rw [hres]
  rfl

/-- C10 witness: the resolved token is itself `--` and still passed
verbatim as the destination path. -/
theorem c10_witness :
    pyListIndex ["blender", "--", "--", "x"] "--" = Except.ok 1 ∧
    resolveTarget ["blender", "--", "--", "x"] = Except.ok "--" ∧
    export' ([] : List Unit) ["blender", "--", "--", "x"] okGltf =
      Except.ok [Event.gltfExport "--" fixedOptions] :=
  c10_first_separator_verbatim ["blender"] ["x"] "--" (by simp)
